import Mathlib

/-!
Shallow embedding of the Scribes backend (Python/FastAPI/SQLAlchemy) core:
the circle-membership subsystem (`app/db/repositories/circle_repository.py`,
`app/services/circle_service.py`) and the JWT / refresh-token subsystem
(`app/security/jwt.py`, `app/services/auth.py`, `app/routes/auth.py`,
`app/db/repositories/refresh_token_repository.py`).

Database tables are modelled as Lean lists of row structures; SQLAlchemy's
`query(...).filter(...).first()` becomes `firstWhere`, mutation of a fetched
ORM row followed by `commit()` becomes `updateFirst`, `db.delete(row)` becomes
`eraseFirst`, and `query(...).filter(...).count()` becomes `countWhere`.
-/

section ListHelpers

variable {α : Type _}

/-- Model of SQLAlchemy `query.filter(p).first()`: the first list element
satisfying `p`, if any. -/
def firstWhere (p : α → Prop) [DecidablePred p] : List α → Option α
  | [] => none
  | x :: xs => if p x then some x else firstWhere p xs

/-- Model of mutating the ORM object returned by `first()` and committing:
apply `f` to the first element satisfying `p`, leave the rest unchanged. -/
def updateFirst (p : α → Prop) [DecidablePred p] (f : α → α) : List α → List α
  | [] => []
  | x :: xs => if p x then f x :: xs else x :: updateFirst p f xs

/-- Model of `db.delete(row)` for the row returned by `first()`: remove the
first element satisfying `p`. -/
def eraseFirst (p : α → Prop) [DecidablePred p] : List α → List α
  | [] => []
  | x :: xs => if p x then xs else x :: eraseFirst p xs

/-- Model of SQLAlchemy `query.filter(p).count()`. -/
def countWhere (p : α → Prop) [DecidablePred p] (xs : List α) : Nat :=
  (xs.filter (fun x => decide (p x))).length

theorem firstWhere_nil (p : α → Prop) [DecidablePred p] : firstWhere p [] = none := rfl

theorem firstWhere_isSome_iff (p : α → Prop) [DecidablePred p] (xs : List α) :
    (firstWhere p xs).isSome = true ↔ ∃ x ∈ xs, p x := by
  induction xs with
  | nil => simp [firstWhere]
  | cons x xs ih =>
    by_cases hx : p x
    · simp [firstWhere, hx]
    · simp [firstWhere, hx, ih]

theorem firstWhere_eq_none_iff (p : α → Prop) [DecidablePred p] (xs : List α) :
    firstWhere p xs = none ↔ ∀ x ∈ xs, ¬ p x := by
  induction xs with
  | nil => simp [firstWhere]
  | cons x xs ih =>
    by_cases hx : p x
    · simp [firstWhere, hx]
    · simp [firstWhere, hx, ih]

/-- Decomposition of a successful `firstWhere`: the list splits around the
found element, everything before it fails the predicate. -/
theorem firstWhere_eq_some_decomp (p : α → Prop) [DecidablePred p] {xs : List α} {x : α}
    (h : firstWhere p xs = some x) :
    ∃ pre post, xs = pre ++ x :: post ∧ (∀ y ∈ pre, ¬ p y) ∧ p x := by
  induction xs with
  | nil => simp [firstWhere] at h
  | cons a xs ih =>
    by_cases ha : p a
    · simp [firstWhere, ha] at h
      exact ⟨[], xs, by simp [h], by simp, h ▸ ha⟩
    · simp [firstWhere, ha] at h
      obtain ⟨pre, post, hxs, hpre, hx⟩ := ih h
      exact ⟨a :: pre, post, by simp [hxs], by simpa [ha] using hpre, hx⟩

theorem firstWhere_append_of_none (p : α → Prop) [DecidablePred p] {xs : List α}
    (h : ∀ y ∈ xs, ¬ p y) (ys : List α) :
    firstWhere p (xs ++ ys) = firstWhere p ys := by
  induction xs with
  | nil => simp
  | cons a xs ih =>
    have ha : ¬ p a := h a (by simp)
    simp [firstWhere, ha]
    exact ih (fun y hy => h y (by simp [hy]))

theorem updateFirst_of_decomp (p : α → Prop) [DecidablePred p] (f : α → α)
    {pre : List α} (post : List α) {x : α} (hpre : ∀ y ∈ pre, ¬ p y) (hx : p x) :
    updateFirst p f (pre ++ x :: post) = pre ++ f x :: post := by
  induction pre with
  | nil => simp [updateFirst, hx]
  | cons a pre ih =>
    have ha : ¬ p a := hpre a (by simp)
    simp [updateFirst, ha]
    exact ih (fun y hy => hpre y (by simp [hy]))

theorem updateFirst_length (p : α → Prop) [DecidablePred p] (f : α → α) (xs : List α) :
    (updateFirst p f xs).length = xs.length := by
  induction xs with
  | nil => rfl
  | cons a xs ih =>
    by_cases ha : p a
    · simp [updateFirst, ha]
    · simp [updateFirst, ha, ih]

theorem countWhere_nil (p : α → Prop) [DecidablePred p] : countWhere p [] = 0 := rfl

theorem countWhere_append (p : α → Prop) [DecidablePred p] (xs ys : List α) :
    countWhere p (xs ++ ys) = countWhere p xs + countWhere p ys := by
  simp [countWhere, List.filter_append]

theorem countWhere_eq_zero_of_forall (p : α → Prop) [DecidablePred p] {xs : List α}
    (h : ∀ x ∈ xs, ¬ p x) : countWhere p xs = 0 := by
  induction xs with
  | nil => rfl
  | cons a xs ih =>
    have ha : ¬ p a := h a (by simp)
    have ih2 := ih (fun x hx => h x (by simp [hx]))
    simpa [countWhere, List.filter, ha] using ih2

theorem countWhere_singleton (p : α → Prop) [DecidablePred p] (x : α) :
    countWhere p [x] = if p x then 1 else 0 := by
  by_cases hx : p x <;> simp [countWhere, List.filter, hx]

end ListHelpers

deriving instance DecidableEq for Except

/-!
## Data model

Row structures mirroring `app/models/circle_models.py` and the Pydantic
schemas in `app/schemas/circle_schemas.py`. The SQLAlchemy `Enum` columns
`member_role_types` and `member_status_types` become inductive types.
Timestamp columns (`created_at`, `updated_at`, `joined_at`) are omitted:
no claim observes them and no embedded operation reads them.
-/

/-- `MemberRole` enum from `circle_schemas.py` / the `role` column enum. -/
inductive MemberRole
  | owner
  | admin
  | member
deriving DecidableEq, Repr

/-- `MemberStatus` enum from `circle_schemas.py` / the `status` column enum. -/
inductive MemberStatus
  | invited
  | active
  | inactive
deriving DecidableEq, Repr

/-- A row of the `circles` table (`Circle` model). -/
structure CircleRow where
  id : Nat
  name : String
  circleDescr : Option String
  owner_id : Nat
  is_private : Bool
deriving DecidableEq, Repr

/-- A row of the `circle_members` table (`CircleMember` model). -/
structure CircleMemberRow where
  id : Nat
  circle_id : Nat
  user_id : Nat
  role : MemberRole
  status : MemberStatus
  invited_by : Option Nat
deriving DecidableEq, Repr

/-- `CircleCreate` request schema. -/
structure CircleCreate where
  name : String
  circleDescr : Option String
  is_private : Bool
deriving DecidableEq, Repr

/-- `CircleMemberCreate` request schema (`user_id`, `role`, `status`). -/
structure CircleMemberCreate where
  user_id : Nat
  role : MemberRole
  status : MemberStatus
deriving DecidableEq, Repr

/-- `CircleMemberInvite` request schema (`user_id`, `role`; no status field). -/
structure CircleMemberInvite where
  user_id : Nat
  role : MemberRole
deriving DecidableEq, Repr

/-- `CircleMemberUpdate` request schema; `none` models a field absent from the
patch (Pydantic `exclude_unset`). -/
structure CircleMemberUpdate where
  role : Option MemberRole
  status : Option MemberStatus
deriving DecidableEq, Repr

/-- The relational store seen by the circle subsystem: the `circles` and
`circle_members` tables, the set of existing user ids (the `users` table as
far as `get_user_by_id` existence checks go), and autoincrement counters for
the primary keys. -/
structure CircleDB where
  circles : List CircleRow
  members : List CircleMemberRow
  users : List Nat
  nextCircleId : Nat
  nextMemberId : Nat
deriving DecidableEq, Repr

namespace CircleRepo

/-!
Embedding of `app/db/repositories/circle_repository.py`. Each function is a
direct translation; stateful operations return the updated `CircleDB`.
-/

/-- `get_circle`: first `circles` row with the given id. -/
def get_circle (db : CircleDB) (circle_id : Nat) : Option CircleRow :=
  firstWhere (fun c => c.id = circle_id) db.circles

/-- `get_circle_member`: first `circle_members` row for (circle_id, user_id). -/
def get_circle_member (db : CircleDB) (circle_id user_id : Nat) : Option CircleMemberRow :=
  firstWhere (fun m => m.circle_id = circle_id ∧ m.user_id = user_id) db.members

/-- `get_member_count`: count of rows for the circle with `status == "active"`. -/
def get_member_count (db : CircleDB) (circle_id : Nat) : Nat :=
  countWhere (fun m => m.circle_id = circle_id ∧ m.status = MemberStatus.active) db.members

/-- `get_circle_with_member_count`: the circle (if present) together with the
aggregate `count(CircleMember.id).filter(CircleMember.status == "active")`
over the outer join on `circle_id`. -/
def get_circle_with_member_count (db : CircleDB) (circle_id : Nat) :
    Option (CircleRow × Nat) :=
  match firstWhere (fun c => c.id = circle_id) db.circles with
  | none => none
  | some c =>
      some (c, countWhere
        (fun m => m.circle_id = circle_id ∧ m.status = MemberStatus.active) db.members)

/-- `create_circle`: insert the circle, then insert the owner's membership row
with `role="owner"`, `status="active"`. -/
def create_circle (db : CircleDB) (circle_data : CircleCreate) (owner_id : Nat) :
    CircleRow × CircleDB :=
  let circle : CircleRow :=
    { id := db.nextCircleId, name := circle_data.name,
      circleDescr := circle_data.circleDescr, owner_id := owner_id,
      is_private := circle_data.is_private }
  let owner_member : CircleMemberRow :=
    { id := db.nextMemberId, circle_id := circle.id, user_id := owner_id,
      role := MemberRole.owner, status := MemberStatus.active, invited_by := none }
  (circle,
   { db with circles := db.circles ++ [circle],
             members := db.members ++ [owner_member],
             nextCircleId := db.nextCircleId + 1,
             nextMemberId := db.nextMemberId + 1 })

/-- `add_member`: upsert — update `role`/`status` of an existing
(circle_id, user_id) row, else insert a new row. -/
def add_member (db : CircleDB) (circle_id : Nat) (member_data : CircleMemberCreate)
    (invited_by : Option Nat) : CircleMemberRow × CircleDB :=
  let pred := fun (m : CircleMemberRow) =>
    m.circle_id = circle_id ∧ m.user_id = member_data.user_id
  match firstWhere pred db.members with
  | some existing_member =>
      let f := fun (m : CircleMemberRow) =>
        { m with role := member_data.role, status := member_data.status }
      (f existing_member, { db with members := updateFirst pred f db.members })
  | none =>
      let member : CircleMemberRow :=
        { id := db.nextMemberId, circle_id := circle_id,
          user_id := member_data.user_id, role := member_data.role,
          status := member_data.status, invited_by := invited_by }
      (member, { db with members := db.members ++ [member],
                         nextMemberId := db.nextMemberId + 1 })

/-- `invite_member`: an existing active row is returned unchanged; an existing
non-active row gets `status="invited"` and a new `invited_by`; otherwise a new
row with the requested role and `status="invited"` is inserted. -/
def invite_member (db : CircleDB) (circle_id : Nat) (invite_data : CircleMemberInvite)
    (inviter_id : Nat) : CircleMemberRow × CircleDB :=
  let pred := fun (m : CircleMemberRow) =>
    m.circle_id = circle_id ∧ m.user_id = invite_data.user_id
  match firstWhere pred db.members with
  | some existing_member =>
      if existing_member.status = MemberStatus.active then
        (existing_member, db)
      else
        let f := fun (m : CircleMemberRow) =>
          { m with status := MemberStatus.invited, invited_by := some inviter_id }
        (f existing_member, { db with members := updateFirst pred f db.members })
  | none =>
      let member : CircleMemberRow :=
        { id := db.nextMemberId, circle_id := circle_id,
          user_id := invite_data.user_id, role := invite_data.role,
          status := MemberStatus.invited, invited_by := some inviter_id }
      (member, { db with members := db.members ++ [member],
                         nextMemberId := db.nextMemberId + 1 })

/-- Application of a `CircleMemberUpdate` patch to a row: only the fields
present in the patch (`exclude_unset`) are overwritten. -/
def applyMemberUpdate (m : CircleMemberRow) (u : CircleMemberUpdate) : CircleMemberRow :=
  { m with role := u.role.getD m.role, status := u.status.getD m.status }

/-- `update_member`: mutate the fetched row (identified by primary key) with
the patch fields and commit. -/
def update_member (db : CircleDB) (member : CircleMemberRow) (update_data : CircleMemberUpdate) :
    CircleMemberRow × CircleDB :=
  (applyMemberUpdate member update_data,
   { db with members :=
       (updateFirst (fun r => r.id = member.id)
         (fun r => applyMemberUpdate r update_data) db.members) })

/-- `remove_member`: delete the fetched row (identified by primary key). -/
def remove_member (db : CircleDB) (member : CircleMemberRow) : CircleDB :=
  { db with members := eraseFirst (fun r => r.id = member.id) db.members }

/-- `check_user_is_owner_or_admin`: circle owner, or an active member whose
role is in {"owner", "admin"}. -/
def check_user_is_owner_or_admin (db : CircleDB) (circle_id user_id : Nat) : Bool :=
  match firstWhere (fun c => c.id = circle_id) db.circles with
  | none => false
  | some cir =>
      if cir.owner_id = user_id then true
      else
        (firstWhere (fun m => m.circle_id = circle_id ∧ m.user_id = user_id ∧
            (m.role = MemberRole.owner ∨ m.role = MemberRole.admin) ∧
            m.status = MemberStatus.active) db.members).isSome

end CircleRepo

/-- Error outcomes of the circle service layer (`app/services/circle_service.py`),
one constructor per distinct `HTTPException` raised by the embedded services:
404 "Circle not found", 404 "Member not found", 404 "User not found",
403 "Only the owner or admin can ...", 400 "User is already a member of this
circle", 403 "The owner's role cannot be changed" (OwnerRoleImmutable),
403 "The owner cannot be removed from the circle" (OwnerCannotLeave). -/
inductive SvcErr
  | circleNotFound
  | memberNotFound
  | userNotFound
  | notAuthority
  | alreadyActiveMember
  | ownerRoleImmutable
  | ownerCannotLeave
deriving DecidableEq, Repr

namespace CircleService

open CircleRepo

/-!
Embedding of the membership services in `app/services/circle_service.py`.
Each service returns its outcome together with the resulting store; when an
`HTTPException` is raised no mutation has happened, so the input store is
returned unchanged (in the source every check precedes the repository call
that commits).
-/

/-- `invite_member_service`: circle must exist, requester must be owner/admin,
invitee must exist, and an already-active member is rejected with 400 before
the repository call. -/
def invite_member_service (db : CircleDB) (circle_id : Nat)
    (invite_data : CircleMemberInvite) (current_user_id : Nat) :
    Except SvcErr CircleMemberRow × CircleDB :=
  match get_circle db circle_id with
  | none => (Except.error SvcErr.circleNotFound, db)
  | some _ =>
    if ¬ (check_user_is_owner_or_admin db circle_id current_user_id = true) then
      (Except.error SvcErr.notAuthority, db)
    else if ¬ (invite_data.user_id ∈ db.users) then
      (Except.error SvcErr.userNotFound, db)
    else
      match get_circle_member db circle_id invite_data.user_id with
      | some existing_member =>
          if existing_member.status = MemberStatus.active then
            (Except.error SvcErr.alreadyActiveMember, db)
          else
            let r := invite_member db circle_id invite_data current_user_id
            (Except.ok r.1, r.2)
      | none =>
          let r := invite_member db circle_id invite_data current_user_id
          (Except.ok r.1, r.2)

/-- Python truthiness of `update_data.role and update_data.role != "owner"`:
an absent role field (`None`) is falsy; a present enum value is truthy. -/
def roleSetAwayFromOwner : Option MemberRole → Bool
  | some r => decide (r ≠ MemberRole.owner)
  | none => false

/-- `update_member_service`: circle and member must exist, requester must be
owner/admin, and a patch that would change an owner row's role to a different
value is rejected (`member.role == "owner" and update_data.role and
update_data.role != "owner"`). -/
def update_member_service (db : CircleDB) (circle_id member_user_id : Nat)
    (update_data : CircleMemberUpdate) (current_user_id : Nat) :
    Except SvcErr CircleMemberRow × CircleDB :=
  match get_circle db circle_id with
  | none => (Except.error SvcErr.circleNotFound, db)
  | some _ =>
    match get_circle_member db circle_id member_user_id with
    | none => (Except.error SvcErr.memberNotFound, db)
    | some member =>
      if ¬ (check_user_is_owner_or_admin db circle_id current_user_id = true) then
        (Except.error SvcErr.notAuthority, db)
      else if member.role = MemberRole.owner ∧
          roleSetAwayFromOwner update_data.role = true then
        (Except.error SvcErr.ownerRoleImmutable, db)
      else
        let r := update_member db member update_data
        (Except.ok r.1, r.2)

/-- `remove_member_service`: circle and member must exist; the requester must
be owner/admin or the member themselves; an owner row is never removed. -/
def remove_member_service (db : CircleDB) (circle_id member_user_id current_user_id : Nat) :
    Except SvcErr Unit × CircleDB :=
  match get_circle db circle_id with
  | none => (Except.error SvcErr.circleNotFound, db)
  | some _ =>
    match get_circle_member db circle_id member_user_id with
    | none => (Except.error SvcErr.memberNotFound, db)
    | some member =>
      if ¬ (check_user_is_owner_or_admin db circle_id current_user_id = true ∨
            member_user_id = current_user_id) then
        (Except.error SvcErr.notAuthority, db)
      else if member.role = MemberRole.owner then
        (Except.error SvcErr.ownerCannotLeave, db)
      else
        (Except.ok (), remove_member db member)

/-- `create_circle_service`: create the circle, then re-read it with its
active-member count. -/
def create_circle_service (db : CircleDB) (circle_data : CircleCreate) (owner_id : Nat) :
    Option (CircleRow × Nat) × CircleDB :=
  let r := create_circle db circle_data owner_id
  (get_circle_with_member_count r.2 r.1.id, r.2)

end CircleService

/-!
## Refresh-token storage and JWT subsystem

Embedding of `app/models/refresh_token.py`,
`app/db/repositories/refresh_token_repository.py`, `app/security/jwt.py`,
`app/services/auth.py` and the routes in `app/routes/auth.py`.
Timestamps are integers (seconds); `datetime.utcnow()` becomes an explicit
`now` argument threaded through the functions that read the clock.
-/

/-- A row of the `refresh_tokens` table (`RefreshToken` model). -/
structure RefreshTokenRow where
  id : Nat
  token : String
  user_id : Nat
  expires_at : Int
  revoked : Bool
deriving DecidableEq, Repr

/-- The `refresh_tokens` table with its autoincrement counter. -/
structure TokDB where
  rows : List RefreshTokenRow
  nextId : Nat
deriving DecidableEq, Repr

namespace RefreshTokenRepo

/-- `create_refresh_token` (repository): insert a row; the `revoked` column
defaults to `False` in the model. -/
def create_refresh_token (db : TokDB) (token : String) (user_id : Nat)
    (expires_at : Int) : RefreshTokenRow × TokDB :=
  let token_record : RefreshTokenRow :=
    { id := db.nextId, token := token, user_id := user_id,
      expires_at := expires_at, revoked := false }
  (token_record, { db with rows := db.rows ++ [token_record], nextId := db.nextId + 1 })

/-- `get_refresh_token`: first row whose token string matches. -/
def get_refresh_token (db : TokDB) (token : String) : Option RefreshTokenRow :=
  firstWhere (fun r => r.token = token) db.rows

/-- `validate_refresh_token`: first row matching the string with
`revoked == False` and `expires_at > datetime.utcnow()`. -/
def validate_refresh_token (db : TokDB) (token : String) (now : Int) :
    Option RefreshTokenRow :=
  firstWhere (fun r => r.token = token ∧ r.revoked = false ∧ now < r.expires_at) db.rows

/-- `revoke_refresh_token`: look the row up by token string; absent → `False`;
otherwise set `revoked = True` on that row and return `True`. -/
def revoke_refresh_token (db : TokDB) (token : String) : Bool × TokDB :=
  match get_refresh_token db token with
  | none => (false, db)
  | some _ =>
      (true,
       { db with rows :=
           (updateFirst (fun r => r.token = token)
             (fun r => { r with revoked := true }) db.rows) })

end RefreshTokenRepo

/-!
### JWT model

`app/security/jwt.py` delegates encoding/decoding to `python-jose`. A token
is modelled as either a payload signed with a key, or an unparseable blob;
`jose.jwt.decode` verifies the signature first (mismatch raises `JWTError`),
then the `exp` claim (`exp < now` raises `ExpiredSignatureError`).
-/

/-- Decoded JWT payload as built by `create_access_token` /
`create_refresh_token`: subject, username, expiry and the type discriminator. -/
structure JwtPayload where
  sub : Nat
  username : String
  exp : Int
  token_type : String
deriving DecidableEq, Repr

/-- A transmitted bearer token: a payload signed with some key, or a string
that does not parse as a JWT at all. -/
inductive JwtToken
  | signed (payload : JwtPayload) (key : String)
  | malformed (s : String)
deriving DecidableEq, Repr

/-- The two failure modes of `jose.jwt.decode` that `verify_token`
distinguishes. -/
inductive DecodeErr
  | expiredSignature
  | jwtError
deriving DecidableEq, Repr

/-- Model of `jose.jwt.decode(token, key, algorithms=[...])`: signature check
first (`JWTError` on mismatch or unparseable input), then the `exp` claim
(`ExpiredSignatureError` when `exp < now`). -/
def jose_decode (tok : JwtToken) (key : String) (now : Int) :
    Except DecodeErr JwtPayload :=
  match tok with
  | JwtToken.malformed _ => Except.error DecodeErr.jwtError
  | JwtToken.signed payload k =>
      if k ≠ key then Except.error DecodeErr.jwtError
      else if payload.exp < now then Except.error DecodeErr.expiredSignature
      else Except.ok payload

/-- Error taxonomy of `verify_token`: 401 "Token has expired",
401 "Invalid token type. Expected ... token.", 401 "Invalid token". -/
inductive TokenErr
  | tokenExpired
  | tokenTypeMismatch
  | tokenInvalid
deriving DecidableEq, Repr

namespace Jwt

/-- `settings.ACCESS_TOKEN_EXPIRE_MINUTES` (app/config.py). -/
def ACCESS_TOKEN_EXPIRE_MINUTES : Int := 30

/-- `settings.REFRESH_TOKEN_EXPIRE_DAYS` (app/config.py). -/
def REFRESH_TOKEN_EXPIRE_DAYS : Int := 7

/-- `settings.JWT_SECRET_KEY` (app/config.py default). -/
def JWT_SECRET_KEY : String := "insecure-jwt-key-change-me"

/-- `settings.JWT_REFRESH_SECRET_KEY` (app/config.py default). -/
def JWT_REFRESH_SECRET_KEY : String := "insecure-jwt-refresh-key-change-me"

/-- Payload data passed to the token constructors
(`{"sub": user.id, "username": user.username}`). -/
structure TokenData where
  sub : Nat
  username : String
deriving DecidableEq, Repr

/-- `create_access_token`: expiry is `now + expires_delta` when a truthy
delta is given (a zero `timedelta` is falsy in Python), else
`now + ACCESS_TOKEN_EXPIRE_MINUTES` minutes; `token_type = "access"`;
signed with `JWT_SECRET_KEY`. -/
def create_access_token (data : TokenData) (expires_delta : Option Int) (now : Int) :
    JwtToken :=
  let expire : Int :=
    match expires_delta with
    | some d => if d ≠ 0 then now + d else now + ACCESS_TOKEN_EXPIRE_MINUTES * 60
    | none => now + ACCESS_TOKEN_EXPIRE_MINUTES * 60
  JwtToken.signed
    { sub := data.sub, username := data.username, exp := expire,
      token_type := "access" } JWT_SECRET_KEY

/-- `create_refresh_token` (jwt.py): expiry is `now + REFRESH_TOKEN_EXPIRE_DAYS`
days; `token_type = "refresh"`; signed with `JWT_REFRESH_SECRET_KEY`. -/
def create_refresh_token (data : TokenData) (now : Int) : JwtToken :=
  JwtToken.signed
    { sub := data.sub, username := data.username,
      exp := now + REFRESH_TOKEN_EXPIRE_DAYS * 86400,
      token_type := "refresh" } JWT_REFRESH_SECRET_KEY

/-- `verify_token`: decode, then check the type discriminator against
`"refresh"` or `"access"` according to `is_refresh`; map
`ExpiredSignatureError` to "Token has expired" and `JWTError` to
"Invalid token". -/
def verify_token (token : JwtToken) (secret_key : String) ( is_refresh : Bool)
    (now : Int) : Except TokenErr JwtPayload :=
  match jose_decode token secret_key now with
  | Except.error DecodeErr.expiredSignature => Except.error TokenErr.tokenExpired
  | Except.error DecodeErr.jwtError => Except.error TokenErr.tokenInvalid
  | Except.ok payload =>
      let expected_type : String := if is_refresh then "refresh" else "access"
      if payload.token_type ≠ expected_type then
        Except.error TokenErr.tokenTypeMismatch
      else
        Except.ok payload

/-- `verify_access_token`. -/
def verify_access_token (token : JwtToken) (now : Int) : Except TokenErr JwtPayload :=
  verify_token token JWT_SECRET_KEY false now

/-- `verify_refresh_token`. -/
def verify_refresh_token (token : JwtToken) (now : Int) : Except TokenErr JwtPayload :=
  verify_token token JWT_REFRESH_SECRET_KEY true now

end Jwt

/-!
### Authentication service and routes

`app/services/auth.py` and `app/routes/auth.py`. Password hashing (passlib
bcrypt) is an external collaborator; it is idealized as a deterministic
injective tagging so that `verify_password` succeeds exactly on the original
password. Nothing in the claims depends on hashing internals.
-/

/-- A row of the `users` table as read by the auth flow (`User` model fields
the login path touches). -/
structure UserRow where
  id : Nat
  username : String
  hashed_password : String
  is_active : Bool
deriving DecidableEq, Repr

namespace AuthService

/-- Idealized `get_password_hash` (passlib bcrypt, external collaborator). -/
def get_password_hash (password : String) : String :=
  "bcrypt$" ++ password

/-- Idealized `verify_password`: succeeds exactly when the plaintext hashes to
the stored value. -/
def verify_password (plain_password hashed_password : String) : Bool :=
  get_password_hash plain_password = hashed_password

/-- `authenticate_user`: look the user up by username, then check the
password; `None` on either failure. -/
def authenticate_user ( users : List UserRow) (username password : String) :
    Option UserRow :=
  match firstWhere (fun u => u.username = username) users with
  | none => none
  | some user =>
      if verify_password password user.hashed_password then some user else none

/-- The `Token` response schema: the pair of freshly minted JWTs. -/
structure Token where
  access_token : JwtToken
  refresh_token : JwtToken
deriving DecidableEq, Repr

/-- `create_tokens_for_user`: mint an access and a refresh JWT from
`{"sub": user.id, "username": user.username}`. The function performs no
store access at all. -/
def create_tokens_for_user (user : UserRow) (now : Int) : Token :=
  let token_data : Jwt.TokenData := { sub := user.id, username := user.username }
  { access_token := Jwt.create_access_token token_data none now,
    refresh_token := Jwt.create_refresh_token token_data now }

end AuthService

/-- Error outcomes of the `/auth/login` route: 401 "Incorrect username or
password" and 401 "User account is disabled". -/
inductive AuthErr
  | incorrectCredentials
  | accountDisabled
deriving DecidableEq, Repr

namespace AuthRoutes

open AuthService

/-- The `/auth/login` route handler: authenticate, reject inactive accounts,
and return `create_tokens_for_user(user)`. The refresh-token table is threaded
through explicitly to record every store effect of the handler; the handler
never writes to it (no code path calls the refresh-token repository). -/
def login ( users : List UserRow) (tdb : TokDB) (username password : String)
    (now : Int) : Except AuthErr Token × TokDB :=
  match authenticate_user users username password with
  | none => (Except.error AuthErr.incorrectCredentials, tdb)
  | some user =>
      if ¬ (user.is_active = true) then (Except.error AuthErr.accountDisabled, tdb)
      else (Except.ok (create_tokens_for_user user now), tdb)

end AuthRoutes

/-!
## Concrete stores used by counterexamples and witnesses
-/

/-- A circle owned by user 1. -/
def exCircleRow : CircleRow :=
  { id := 1, name := "Bible Study", circleDescr := none, owner_id := 1, is_private := true }

/-- The owner's membership row, created at circle creation. -/
def exOwnerRow : CircleMemberRow :=
  { id := 1, circle_id := 1, user_id := 1, role := MemberRole.owner,
    status := MemberStatus.active, invited_by := none }

/-- An ordinary active member (user 2). -/
def exMemberRow : CircleMemberRow :=
  { id := 2, circle_id := 1, user_id := 2, role := MemberRole.member,
    status := MemberStatus.active, invited_by := some 1 }

/-- A still-invited member (user 3). -/
def exInvitedRow : CircleMemberRow :=
  { id := 3, circle_id := 1, user_id := 3, role := MemberRole.member,
    status := MemberStatus.invited, invited_by := some 1 }

/-- A circle store satisfying the one-owner invariant. -/
def exDB : CircleDB :=
  { circles := [exCircleRow], members := [exOwnerRow, exMemberRow, exInvitedRow],
    users := [1, 2, 3], nextCircleId := 2, nextMemberId := 4 }

/-- A stored refresh token that has been revoked but is unexpired. -/
def exRevokedRow : RefreshTokenRow :=
  { id := 1, token := "rt1", user_id := 1, expires_at := 1000, revoked := true }

/-- A stored live refresh token. -/
def exLiveRow : RefreshTokenRow :=
  { id := 2, token := "rt2", user_id := 1, expires_at := 1000, revoked := false }

/-- A refresh-token store with one revoked and one live token. -/
def exTokDB : TokDB := { rows := [exRevokedRow, exLiveRow], nextId := 3 }

/-!
## Claims
-/

/-- C4: `validate_refresh_token` returns a record exactly when a stored row
matches the token string with `revoked = false` and `expires_at` strictly in
the future; in particular, when every stored row bearing that token string is
revoked, it returns nothing, regardless of the token's own embedded claims. -/
theorem C4_validate_refresh_token_iff (db : TokDB) (token : String) (now : Int) :
    ((RefreshTokenRepo.validate_refresh_token db token now).isSome = true ↔
      ∃ r ∈ db.rows, r.token = token ∧ r.revoked = false ∧ now < r.expires_at) ∧
    ((∀ r ∈ db.rows, r.token = token → r.revoked = true) →
      RefreshTokenRepo.validate_refresh_token db token now = none) := by
  constructor
  · exact firstWhere_isSome_iff _ _
  · intro h
    rw [RefreshTokenRepo.validate_refresh_token, firstWhere_eq_none_iff]
    intro r hr
    rintro ⟨htok, hrev, _⟩
    have := h r hr htok
    rw [this] at hrev
    exact Bool.noConfusion hrev

/-- Witness for C4 at a concrete store: the stored token "rt1" is unexpired
at time 0 but revoked, and validation rejects it. -/
theorem C4_witness :
    RefreshTokenRepo.validate_refresh_token exTokDB "rt1" 0 = none :=
  (C4_validate_refresh_token_iff exTokDB "rt1" 0).2 (by decide)

/-- C8: `verify_token` fails with `TokenExpired` when a correctly signed
token's embedded expiry is in the past (in particular an access token minted
with the default 30-minute TTL and verified 31 minutes later); with
`TokenTypeMismatch` when the token decodes correctly but its type
discriminator differs from the expected type; and with `TokenInvalid` for a
signature mismatch or an unparseable token. -/
theorem C8_verify_token_taxonomy :
    (∀ (p : JwtPayload) (key : String) (is_refresh : Bool) (now : Int),
        p.exp < now →
        Jwt.verify_token (JwtToken.signed p key) key is_refresh now
          = Except.error TokenErr.tokenExpired) ∧
    (∀ (p : JwtPayload) (key : String) (is_refresh : Bool) (now : Int),
        ¬ p.exp < now →
        p.token_type ≠ (if is_refresh then "refresh" else "access") →
        Jwt.verify_token (JwtToken.signed p key) key is_refresh now
          = Except.error TokenErr.tokenTypeMismatch) ∧
    (∀ (p : JwtPayload) (k key : String) (is_refresh : Bool) (now : Int),
        k ≠ key →
        Jwt.verify_token (JwtToken.signed p k) key is_refresh now
          = Except.error TokenErr.tokenInvalid) ∧
    (∀ (s key : String) (is_refresh : Bool) (now : Int),
        Jwt.verify_token (JwtToken.malformed s) key is_refresh now
          = Except.error TokenErr.tokenInvalid) ∧
    (∀ (data : Jwt.TokenData) (t : Int),
        Jwt.verify_access_token (Jwt.create_access_token data none t) (t + 31 * 60)
          = Except.error TokenErr.tokenExpired) := by
  refine ⟨?_, ?_, ?_, ?_, ?_⟩
  · intro p key b now h
    simp [Jwt.verify_token, jose_decode, h]
  · intro p key b now hexp htype
    simp [Jwt.verify_token, jose_decode, hexp, htype]
  · intro p k key b now h
    simp [Jwt.verify_token, jose_decode, h]
  · intro s key b now
    simp [Jwt.verify_token, jose_decode]
  · intro data t
    have h : (Jwt.ACCESS_TOKEN_EXPIRE_MINUTES * 60 : Int) < 1860 := by
      norm_num [Jwt.ACCESS_TOKEN_EXPIRE_MINUTES]
    simp [Jwt.verify_access_token, Jwt.verify_token, Jwt.create_access_token,
      jose_decode, h]

/-- Witness for C8: each branch of the taxonomy at a concrete token. -/
theorem C8_witness :
    Jwt.verify_token (JwtToken.signed ⟨1, "u", 5, "access"⟩ "k") "k" false 10
        = Except.error TokenErr.tokenExpired ∧
    Jwt.verify_token (JwtToken.signed ⟨1, "u", 50, "refresh"⟩ "k") "k" false 10
        = Except.error TokenErr.tokenTypeMismatch ∧
    Jwt.verify_token (JwtToken.signed ⟨1, "u", 50, "access"⟩ "wrong") "k" false 10
        = Except.error TokenErr.tokenInvalid ∧
    Jwt.verify_access_token (Jwt.create_access_token ⟨1, "u"⟩ none 0) (0 + 31 * 60)
        = Except.error TokenErr.tokenExpired :=
  ⟨C8_verify_token_taxonomy.1 _ _ _ _ (by decide),
   C8_verify_token_taxonomy.2.1 _ _ _ _ (by decide) (by decide),
   C8_verify_token_taxonomy.2.2.1 _ _ _ _ _ (by decide),
   C8_verify_token_taxonomy.2.2.2.2 ⟨1, "u"⟩ 0⟩

/-- The user for the C1 failing input. -/
def c1User : UserRow :=
  { id := 1, username := "alice",
    hashed_password := AuthService.get_password_hash "pw", is_active := true }

/-- An empty refresh-token table. -/
def emptyTokDB : TokDB := { rows := [], nextId := 1 }

/-- C1 (code bug): the claim says every refresh token issued by
`create_tokens_for_user` is persisted as a `RefreshToken` record with
`revoked = false`. The code never calls the refresh-token repository from any
issuing path: a successful login returns the freshly minted token pair and
leaves the refresh-token table exactly as it was, so no record for the
returned refresh token exists afterwards. -/
theorem C1_refresh_token_not_persisted :
    AuthRoutes.login [c1User] emptyTokDB "alice" "pw" 0
      = (Except.ok (AuthService.create_tokens_for_user c1User 0), emptyTokDB) ∧
    (AuthRoutes.login [c1User] emptyTokDB "alice" "pw" 0).2.rows = [] := by
  constructor
  · rfl
  · rfl

/-- C7 counterexample: the claim says revoking an already-revoked token
returns a not-found signal (`False`). On a store holding the revoked token
"rt1", `revoke_refresh_token` returns `True` instead. -/
theorem C7_counterexample :
    ¬ ((RefreshTokenRepo.revoke_refresh_token exTokDB "rt1").1 = false) := by
  decide

/-- C7 (amended): `revoke_refresh_token` marks the matching record revoked and
returns `True`; it is idempotent and never errors, but only an unknown token
yields the not-found signal `False` — revoking an already-revoked token
returns `True` while leaving the store unchanged. -/
theorem C7_revoke_semantics (db : TokDB) (tok : String) :
    (RefreshTokenRepo.get_refresh_token db tok = none →
      RefreshTokenRepo.revoke_refresh_token db tok = (false, db)) ∧
    (∀ r, RefreshTokenRepo.get_refresh_token db tok = some r →
      (RefreshTokenRepo.revoke_refresh_token db tok).1 = true ∧
      (r.revoked = true → RefreshTokenRepo.revoke_refresh_token db tok = (true, db)) ∧
      RefreshTokenRepo.get_refresh_token
          (RefreshTokenRepo.revoke_refresh_token db tok).2 tok
        = some { r with revoked := true }) := by
  constructor
  · intro h
    simp [RefreshTokenRepo.revoke_refresh_token, h]
  · intro r h
    have h' : firstWhere (fun s => s.token = tok) db.rows = some r := by
      simpa [RefreshTokenRepo.get_refresh_token] using h
    obtain ⟨pre, post, hxs, hpre, hr⟩ := firstWhere_eq_some_decomp _ h'
    refine ⟨?_, ?_, ?_⟩
    · simp [RefreshTokenRepo.revoke_refresh_token, h]
    · intro hrev
      have hfr : ({ r with revoked := true } : RefreshTokenRow) = r := by
        rw [← hrev]
      simp only [RefreshTokenRepo.revoke_refresh_token, h]
      rw [hxs, updateFirst_of_decomp _ _ post hpre hr]
      rw [hfr, ← hxs]
    · have hrevoke : RefreshTokenRepo.revoke_refresh_token db tok
          = (true, { db with rows := pre ++ ({ r with revoked := true }) :: post }) := by
        simp only [RefreshTokenRepo.revoke_refresh_token, h]
        rw [hxs, updateFirst_of_decomp _ _ post hpre hr]
      rw [hrevoke, RefreshTokenRepo.get_refresh_token]
      rw [firstWhere_append_of_none _ hpre]
      simp [firstWhere, hr]

/-- Witness for C7 at concrete stores: an unknown token yields the not-found
signal without error, and the revoked token "rt1" is re-revoked as a state
no-op returning `True`. -/
theorem C7_witness :
    RefreshTokenRepo.revoke_refresh_token emptyTokDB "zzz" = (false, emptyTokDB) ∧
    RefreshTokenRepo.revoke_refresh_token exTokDB "rt1" = (true, exTokDB) :=
  ⟨(C7_revoke_semantics emptyTokDB "zzz").1 (by decide),
   ((C7_revoke_semantics exTokDB "rt1").2 exRevokedRow (by decide)).2.1 (by decide)⟩

/-- C3 counterexample: the claim says inviting an already-active member
returns the existing record with no error for every authorized requester. On
`exDB`, the circle owner (user 1, authorized) inviting the active member
user 2 is rejected by `invite_member_service` with the 400 "User is already a
member of this circle" error instead of a record. -/
theorem C3_counterexample :
    CircleService.invite_member_service exDB 1
        { user_id := 2, role := MemberRole.member } 1
      = (Except.error SvcErr.alreadyActiveMember, exDB) := by
  decide

/-- C3 (amended): at the repository level, `invite_member` on a user whose
membership row is already active is a no-op returning that row unchanged —
no duplicate, no demotion, storage untouched — but the service layer
(`invite_member_service`) rejects such a request with a 400 error before
reaching the repository. -/
theorem C3_repo_invite_active_noop (db : CircleDB) (circle_id : Nat)
    (invite_data : CircleMemberInvite) (inviter_id : Nat) (m : CircleMemberRow)
    (hm : CircleRepo.get_circle_member db circle_id invite_data.user_id = some m)
    (hactive : m.status = MemberStatus.active) :
    CircleRepo.invite_member db circle_id invite_data inviter_id = (m, db) := by
  have hm' : firstWhere
      (fun r => r.circle_id = circle_id ∧ r.user_id = invite_data.user_id)
      db.members = some m := by
    simpa [CircleRepo.get_circle_member] using hm
  simp [CircleRepo.invite_member, hm', hactive]

/-- Witness for C3's amended statement: re-inviting the active member user 2
(even with a different requested role) returns the stored row unchanged. -/
theorem C3_witness :
    CircleRepo.invite_member exDB 1 { user_id := 2, role := MemberRole.admin } 3
      = (exMemberRow, exDB) :=
  C3_repo_invite_active_noop exDB 1 { user_id := 2, role := MemberRole.admin } 3
    exMemberRow (by decide) (by decide)

/-- C5 counterexample: the claim says a patch moving an owner row's role away
from owner fails with `OwnerRoleImmutable` for ANY requester. Requester 99
(no authority over circle 1) gets the 403 authority error instead: the
authority check precedes the owner-role check. -/
theorem C5_counterexample :
    CircleService.update_member_service exDB 1 1
        { role := some MemberRole.admin, status := none } 99
      = (Except.error SvcErr.notAuthority, exDB) ∧
    (CircleService.update_member_service exDB 1 1
        { role := some MemberRole.admin, status := none } 99).1
      ≠ Except.error SvcErr.ownerRoleImmutable := by
  decide

/-- C5 (amended): for every existing circle and membership row whose role is
owner, an update-member request patching the role to a non-owner value fails
with `OwnerRoleImmutable` for every requester that passes the authority check
(circle owner or active owner/admin member), and the store is unchanged;
requesters without authority fail earlier with the authority error. -/
theorem C5_owner_role_immutable (db : CircleDB)
    (circle_id member_user_id current_user_id : Nat)
    (update_data : CircleMemberUpdate) (c : CircleRow) (m : CircleMemberRow)
    (r : MemberRole)
    (hc : CircleRepo.get_circle db circle_id = some c)
    (hm : CircleRepo.get_circle_member db circle_id member_user_id = some m)
    (hauth : CircleRepo.check_user_is_owner_or_admin db circle_id current_user_id = true)
    (howner : m.role = MemberRole.owner)
    (hrole : update_data.role = some r)
    (hne : r ≠ MemberRole.owner) :
    CircleService.update_member_service db circle_id member_user_id update_data
        current_user_id
      = (Except.error SvcErr.ownerRoleImmutable, db) := by
  have hcond : CircleService.roleSetAwayFromOwner update_data.role = true := by
    simp [CircleService.roleSetAwayFromOwner, hrole, hne]
  simp [CircleService.update_member_service, hc, hm, hauth, howner, hcond]

/-- Witness for C5's amended statement: the circle owner demoting their own
owner row to admin is rejected with `OwnerRoleImmutable`, store unchanged. -/
theorem C5_witness :
    CircleService.update_member_service exDB 1 1
        { role := some MemberRole.admin, status := none } 1
      = (Except.error SvcErr.ownerRoleImmutable, exDB) :=
  C5_owner_role_immutable exDB 1 1 1 { role := some MemberRole.admin, status := none }
    exCircleRow exOwnerRow MemberRole.admin (by decide) (by decide) (by decide)
    (by decide) (by decide) (by decide)

/-- C6: self-removal (`member_user_id = current_user_id`) passes the
permission check with no authority requirement; a non-owner member's
self-removal succeeds and deletes the row, while an owner row can never be
self-removed — the service fails with `OwnerCannotLeave` and the store (hence
the row) is unchanged. -/
theorem C6_self_removal (db : CircleDB) (circle_id user_id : Nat)
    (c : CircleRow) (m : CircleMemberRow)
    (hc : CircleRepo.get_circle db circle_id = some c)
    (hm : CircleRepo.get_circle_member db circle_id user_id = some m) :
    (m.role = MemberRole.owner →
      CircleService.remove_member_service db circle_id user_id user_id
        = (Except.error SvcErr.ownerCannotLeave, db)) ∧
    (m.role ≠ MemberRole.owner →
      CircleService.remove_member_service db circle_id user_id user_id
        = (Except.ok (), CircleRepo.remove_member db m)) := by
  constructor
  · intro howner
    simp [CircleService.remove_member_service, hc, hm, howner]
  · intro hnot
    simp [CircleService.remove_member_service, hc, hm, hnot]

/-- Witness for C6: the plain member user 2 — who has no authority over the
circle — removes themselves successfully, and the owner's self-removal
attempt fails with `OwnerCannotLeave` leaving the store unchanged. -/
theorem C6_witness :
    CircleService.remove_member_service exDB 1 2 2
      = (Except.ok (), CircleRepo.remove_member exDB exMemberRow) ∧
    CircleService.remove_member_service exDB 1 1 1
      = (Except.error SvcErr.ownerCannotLeave, exDB) :=
  ⟨(C6_self_removal exDB 1 2 exCircleRow exMemberRow (by decide) (by decide)).2
      (by decide),
   (C6_self_removal exDB 1 1 exCircleRow exOwnerRow (by decide) (by decide)).1
      (by decide)⟩

/-- C2 counterexample: the claim also asserts the one-owner invariant is
preserved by every membership operation. Starting from `exDB` (which has
exactly one owner row for circle 1), the authorized circle owner promotes the
ordinary member user 2 to role owner through `update_member_service` — the
service only blocks changing an owner row AWAY from owner — leaving circle 1
with two owner rows. -/
theorem C2_counterexample :
    countWhere (fun m => m.circle_id = 1 ∧ m.role = MemberRole.owner) exDB.members
      = 1 ∧
    (CircleService.update_member_service exDB 1 2
        { role := some MemberRole.owner, status := none } 1).1
      = Except.ok { exMemberRow with role := MemberRole.owner } ∧
    countWhere (fun m => m.circle_id = 1 ∧ m.role = MemberRole.owner)
        (CircleService.update_member_service exDB 1 2
          { role := some MemberRole.owner, status := none } 1).2.members
      = 2 := by
  decide

/-- C2 (amended): immediately after `create_circle` the new circle has exactly
one membership row with role owner, and every owner-role row of the new circle
belongs to the creating owner with status active; but the invariant is not
preserved by the membership operations (see the counterexample: update may
promote a second row to owner). The hypothesis says the fresh circle id is
unused among existing membership rows, which the autoincrement discipline
guarantees. -/
theorem C2_owner_row_after_create (db : CircleDB) (circle_data : CircleCreate)
    (owner_id : Nat)
    (hwf : ∀ m ∈ db.members, m.circle_id ≠ db.nextCircleId) :
    countWhere
        (fun m => m.circle_id = (CircleRepo.create_circle db circle_data owner_id).1.id
          ∧ m.role = MemberRole.owner)
        (CircleRepo.create_circle db circle_data owner_id).2.members = 1 ∧
    ∀ m ∈ (CircleRepo.create_circle db circle_data owner_id).2.members,
      m.circle_id = (CircleRepo.create_circle db circle_data owner_id).1.id →
      m.user_id = owner_id ∧ m.role = MemberRole.owner ∧
        m.status = MemberStatus.active := by
  have hmembers : (CircleRepo.create_circle db circle_data owner_id).2.members
      = db.members ++ [⟨db.nextMemberId, db.nextCircleId, owner_id,
          MemberRole.owner, MemberStatus.active, none⟩] := by
    simp [CircleRepo.create_circle]
  have hid : (CircleRepo.create_circle db circle_data owner_id).1.id
      = db.nextCircleId := by
    simp [CircleRepo.create_circle]
  constructor
  · rw [hmembers, hid, countWhere_append]
    have h0 : countWhere
        (fun m => m.circle_id = db.nextCircleId ∧ m.role = MemberRole.owner)
        db.members = 0 :=
      countWhere_eq_zero_of_forall _ (fun m hm hp => hwf m hm hp.1)
    rw [h0, countWhere_singleton]
    simp
  · intro m hm hcid
    rw [hmembers] at hm
    rw [hid] at hcid
    rcases List.mem_append.1 hm with h1 | h2
    · exact absurd hcid (hwf m h1)
    · have hm2 : m = ⟨db.nextMemberId, db.nextCircleId, owner_id,
          MemberRole.owner, MemberStatus.active, none⟩ := by simpa using h2
      rw [hm2]
      exact ⟨rfl, rfl, rfl⟩

/-- An empty circle store. -/
def emptyCircleDB : CircleDB :=
  { circles := [], members := [], users := [1, 2], nextCircleId := 1, nextMemberId := 1 }

/-- Witness for C2's amended statement: creating a circle in an empty store
yields exactly one owner row for the fresh circle. -/
theorem C2_witness :
    countWhere
        (fun m => m.circle_id
            = (CircleRepo.create_circle emptyCircleDB
                { name := "c", circleDescr := none, is_private := false } 1).1.id
          ∧ m.role = MemberRole.owner)
        (CircleRepo.create_circle emptyCircleDB
          { name := "c", circleDescr := none, is_private := false } 1).2.members = 1 :=
  (C2_owner_row_after_create emptyCircleDB
    { name := "c", circleDescr := none, is_private := false } 1 (by decide)).1

/-- Scenario store for C9: empty store with users 1 and 2. -/
def c9db0 : CircleDB :=
  { circles := [], members := [], users := [1, 2], nextCircleId := 1, nextMemberId := 1 }

/-- After user 1 creates the private circle "Bible Study". -/
def c9db1 : CircleDB :=
  (CircleRepo.create_circle c9db0
    { name := "Bible Study", circleDescr := none, is_private := true } 1).2

/-- The membership row created by inviting user 2 into circle 1. -/
def c9invited : CircleMemberRow :=
  (CircleRepo.invite_member c9db1 1 { user_id := 2, role := MemberRole.member } 1).1

/-- After the invitation of user 2. -/
def c9db2 : CircleDB :=
  (CircleRepo.invite_member c9db1 1 { user_id := 2, role := MemberRole.member } 1).2

/-- After user 2's row is set to status active. -/
def c9db3 : CircleDB :=
  (CircleRepo.update_member c9db2 c9invited
    { role := none, status := some MemberStatus.active }).2

/-- C9: every member-count a circle read reports counts exactly the circle's
rows with status active; inviting a user with no existing row leaves the
active-member count unchanged while adding the (non-counted) invited row to
storage; and in the concrete scenario the count is 1 after creation, still 1
after inviting user 2, and 2 once user 2's status becomes active. -/
theorem C9_member_count_counts_active :
    (∀ (db : CircleDB) (circle_id : Nat) (c : CircleRow) (cnt : Nat),
        CircleRepo.get_circle_with_member_count db circle_id = some (c, cnt) →
        cnt = countWhere
            (fun m => m.circle_id = circle_id ∧ m.status = MemberStatus.active)
            db.members ∧
        cnt = CircleRepo.get_member_count db circle_id) ∧
    (∀ (db : CircleDB) (circle_id : Nat) (invite_data : CircleMemberInvite)
        (inviter_id : Nat),
        CircleRepo.get_circle_member db circle_id invite_data.user_id = none →
        CircleRepo.get_member_count
            (CircleRepo.invite_member db circle_id invite_data inviter_id).2 circle_id
          = CircleRepo.get_member_count db circle_id ∧
        ((CircleRepo.invite_member db circle_id invite_data inviter_id).2.members).length
          = db.members.length + 1) ∧
    (CircleRepo.get_circle_with_member_count c9db1 1
        = some ((CircleRepo.create_circle c9db0
            { name := "Bible Study", circleDescr := none, is_private := true } 1).1, 1) ∧
     CircleRepo.get_member_count c9db2 1 = 1 ∧
     CircleRepo.get_member_count c9db3 1 = 2) := by
  refine ⟨?_, ?_, by decide, by decide, by decide⟩
  · intro db circle_id c cnt h
    rw [CircleRepo.get_circle_with_member_count] at h
    cases hfc : firstWhere (fun cr => cr.id = circle_id) db.circles with
    | none => rw [hfc] at h; exact absurd h (by simp)
    | some c2 =>
        rw [hfc] at h
        simp only [Option.some.injEq, Prod.mk.injEq] at h
        refine ⟨h.2.symm, ?_⟩
        rw [CircleRepo.get_member_count]
        exact h.2.symm
  · intro db circle_id invite_data inviter_id hm
    have hm' : firstWhere
        (fun r => r.circle_id = circle_id ∧ r.user_id = invite_data.user_id)
        db.members = none := by
      simpa [CircleRepo.get_circle_member] using hm
    have hres : (CircleRepo.invite_member db circle_id invite_data inviter_id).2.members
        = db.members ++ [⟨db.nextMemberId, circle_id, invite_data.user_id,
            invite_data.role, MemberStatus.invited, some inviter_id⟩] := by
      simp [CircleRepo.invite_member, hm']
    constructor
    · rw [CircleRepo.get_member_count, CircleRepo.get_member_count, hres,
        countWhere_append, countWhere_singleton]
      simp
    · rw [hres]
      simp

/-- Witness for C9: on the concrete store `exDB` the reported count is the
number of active rows (2 of the 3 stored rows), and inviting the fresh user 4
does not change the active-member count. -/
theorem C9_witness :
    (2 : Nat) = countWhere
        (fun m => m.circle_id = 1 ∧ m.status = MemberStatus.active) exDB.members ∧
    CircleRepo.get_member_count
        (CircleRepo.invite_member exDB 1 { user_id := 4, role := MemberRole.member } 9).2 1
      = CircleRepo.get_member_count exDB 1 :=
  ⟨(C9_member_count_counts_active.1 exDB 1 exCircleRow 2 (by decide)).1,
   (C9_member_count_counts_active.2.1 exDB 1
      { user_id := 4, role := MemberRole.member } 9 (by decide)).1⟩

/-- C10: re-inviting a user whose row exists with non-active status rewrites
only that row's `status` (to invited) and `invited_by` fields; its role — and
every other field — is unchanged even when the invitation carries a different
role, no row is added or removed, and all other rows are untouched. -/
theorem C10_reinvite_frame (db : CircleDB) (circle_id : Nat)
    (invite_data : CircleMemberInvite) (inviter_id : Nat) (m : CircleMemberRow)
    (hm : CircleRepo.get_circle_member db circle_id invite_data.user_id = some m)
    (hst : m.status ≠ MemberStatus.active) :
    (CircleRepo.invite_member db circle_id invite_data inviter_id).1
      = { m with status := MemberStatus.invited, invited_by := some inviter_id } ∧
    (CircleRepo.invite_member db circle_id invite_data inviter_id).1.role = m.role ∧
    (CircleRepo.invite_member db circle_id invite_data inviter_id).2.members.length
      = db.members.length ∧
    ∃ pre post, db.members = pre ++ m :: post ∧
      (CircleRepo.invite_member db circle_id invite_data inviter_id).2.members
        = pre ++ ({ m with status := MemberStatus.invited, invited_by := some inviter_id }) :: post := by
  have hm' : firstWhere
      (fun r => r.circle_id = circle_id ∧ r.user_id = invite_data.user_id)
      db.members = some m := by
    simpa [CircleRepo.get_circle_member] using hm
  have hres1 : (CircleRepo.invite_member db circle_id invite_data inviter_id).1
      = { m with status := MemberStatus.invited, invited_by := some inviter_id } := by
    simp [CircleRepo.invite_member, hm', hst]
  have hres2 : (CircleRepo.invite_member db circle_id invite_data inviter_id).2.members
      = updateFirst (fun r => r.circle_id = circle_id ∧ r.user_id = invite_data.user_id)
          (fun r => { r with status := MemberStatus.invited, invited_by := some inviter_id }) db.members := by
    simp [CircleRepo.invite_member, hm', hst]
  obtain ⟨pre, post, hxs, hpre, hp⟩ := firstWhere_eq_some_decomp _ hm'
  refine ⟨hres1, by rw [hres1], ?_, pre, post, hxs, ?_⟩
  · rw [hres2, updateFirst_length]
  · rw [hres2, hxs, updateFirst_of_decomp _ _ post hpre hp]

/-- Witness for C10: re-inviting the invited user 3 with a DIFFERENT requested
role (admin) returns their row with the stored role (member) intact and only
`invited_by` refreshed. -/
theorem C10_witness :
    (CircleRepo.invite_member exDB 1 { user_id := 3, role := MemberRole.admin } 2).1
      = { exInvitedRow with status := MemberStatus.invited, invited_by := some 2 } ∧
    (CircleRepo.invite_member exDB 1 { user_id := 3, role := MemberRole.admin } 2).1.role
      = exInvitedRow.role :=
  ⟨(C10_reinvite_frame exDB 1 { user_id := 3, role := MemberRole.admin } 2
      exInvitedRow (by decide) (by decide)).1,
   (C10_reinvite_frame exDB 1 { user_id := 3, role := MemberRole.admin } 2
      exInvitedRow (by decide) (by decide)).2.1⟩
